import Mathlib

/-!
Shallow embedding of the Sand-pavilion front end ("Nano Banana"):
the request adapter (src/services/geminiService.ts) and the application
state controller (the React `App` component).  The remote generation
capability and the local file reader are modelled as oracles passed in
as function parameters; every handler additionally returns the list of
network requests it issued, so that "no network call occurs" is a
statement about that list.
-/

namespace NanoBanana

/-- An inline data fragment of a content part: raw data (base64 text in the
source) plus a media-type label. -/
structure InlineData where
  data : String
  mimeType : String
deriving DecidableEq, Repr

/-- A content part: either inline binary data or text (the source checks
`part.inlineData` for truthiness, so we model both fields as optional). -/
structure Part where
  inlineData : Option InlineData
  text : Option String
deriving DecidableEq, Repr

/-- A candidate content object: `candidate.content.parts` is optional in the
SDK response type, hence the nested options. -/
structure Content where
  parts : Option (List Part)
deriving DecidableEq, Repr

structure Candidate where
  content : Option Content
deriving DecidableEq, Repr

/-- A remote response: an optional ordered list of candidates. -/
structure GenerateContentResponse where
  candidates : Option (List Candidate)
deriving DecidableEq, Repr

/-- Response modality restriction; the application always uses `[IMAGE]`. -/
inductive Modality where
  | IMAGE
deriving DecidableEq, Repr

/-- Request configuration: `systemInstruction` is only set by `generateImage`. -/
structure RequestConfig where
  systemInstruction : Option String
  responseModalities : List Modality
deriving DecidableEq, Repr

/-- A request to `ai.models.generateContent`: model name, the `contents.parts`
list, and the config object. -/
structure GenerateContentRequest where
  model : String
  parts : List Part
  config : RequestConfig
deriving DecidableEq, Repr

/-- The remote capability, modelled as an oracle: either a response or a
transport/service error (carried as an opaque string). -/
abbrev Remote := GenerateContentRequest → Except String GenerateContentResponse

/-- `response.candidates?.[0]?.content?.parts || []` — the first candidate's
parts, or the empty list when any link of the optional chain is absent. -/
def responseParts (r : GenerateContentResponse) : List Part :=
  ((((r.candidates.bind List.head?).bind Candidate.content).bind Content.parts).getD [])

/-- The `for (const part of ...) if (part.inlineData) return part.inlineData.data`
loop shared by `editImage` and `generateImage`: the data of the first part
carrying inline image data, else `none`. -/
def firstInlineData : List Part → Option String
  | [] => none
  | p :: ps =>
    match p.inlineData with
    | some idata => some idata.data
    | none => firstInlineData ps

/-- The request constructed by `editImage`: an inline-data part followed by a
text part, image-only response modality, no system instruction. -/
def editImageRequest (base64ImageData : String) (mimeType : String) (prompt : String) :
    GenerateContentRequest :=
  { model := "gemini-2.5-flash-image"
  , parts :=
      [ { inlineData := some { data := base64ImageData, mimeType := mimeType }, text := none }
      , { inlineData := none, text := some prompt } ]
  , config := { systemInstruction := none, responseModalities := [Modality.IMAGE] } }

/-- `editImage` from geminiService.ts: sends the request once and scans the
response; the `catch` block logs and rethrows, so an error from the remote is
propagated unchanged. -/
def editImage (remote : Remote) (base64ImageData : String) (mimeType : String)
    (prompt : String) : Except String (Option String) :=
  match remote (editImageRequest base64ImageData mimeType prompt) with
  | Except.error e => Except.error e
  | Except.ok response => Except.ok (firstInlineData (responseParts response))

/-- The style variant of `generateImage`: the TypeScript union `_2d | _3d`
(written with leading underscores since Lean names cannot start with a digit). -/
inductive StyleType where
  | _2d
  | _3d
deriving DecidableEq, Repr

/-- The `systemInstructions` lookup object inside `generateImage`. -/
def systemInstructions : StyleType → String
  | StyleType._2d => "You are an expert architect and designer specializing in technical blueprints, permaculture layouts, and graph views. Generate clear, detailed, and accurate visual representations based on the user\x27s request. The output should be a single, high-quality image."
  | StyleType._3d => "You are an expert 3D modeler and product designer. Generate a clear, 3D rendered blueprint of the user\x27s request. The image should have a clean, technical aesthetic, showing perspective, and clearly labeling important dimensions like height, width, and depth if provided. The output must be a single, high-quality image."

/-- The request constructed by `generateImage`: a single text part, the system
instruction selected by the style variant, image-only response modality. -/
def generateImageRequest (prompt : String) (type : StyleType) : GenerateContentRequest :=
  { model := "gemini-2.5-flash-image"
  , parts := [ { inlineData := none, text := some prompt } ]
  , config :=
      { systemInstruction := some (systemInstructions type)
      , responseModalities := [Modality.IMAGE] } }

/-- `generateImage` from geminiService.ts.  In the source `type` has declared
default `_2d`; the caller in App.tsx omits the argument, so the handler model
below passes `StyleType._2d` explicitly. -/
def generateImage (remote : Remote) (prompt : String) (type : StyleType) :
    Except String (Option String) :=
  match remote (generateImageRequest prompt type) with
  | Except.error e => Except.error e
  | Except.ok response => Except.ok (firstInlineData (responseParts response))

/-- Order-of-scan specification: `d` is the data of the first inline-image part
of `ps` when `ps` splits as a prefix of image-free parts, then a part carrying
inline data `d`. -/
def IsFirstImageData (ps : List Part) (d : String) : Prop :=
  ∃ pre q post, ps = pre ++ q :: post ∧
    (∀ r ∈ pre, r.inlineData = none) ∧
    q.inlineData.map InlineData.data = some d

theorem firstInlineData_some_iff (ps : List Part) (d : String) :
    firstInlineData ps = some d ↔ IsFirstImageData ps d := by
  induction ps with
  | nil =>
    simp only [firstInlineData, IsFirstImageData]
    constructor
    · intro h; exact absurd h (by simp)
    · rintro ⟨pre, q, post, h, -, -⟩
      exact absurd h (by simp)
  | cons p ps ih =>
    cases hp : p.inlineData with
    | some idata =>
      simp only [firstInlineData, hp]
      constructor
      · intro h
        exact ⟨[], p, ps, by simp, by simp, by simp [hp, Option.map_some, h]⟩
      · rintro ⟨pre, q, post, heq, hpre, hq⟩
        cases pre with
        | nil =>
          simp only [List.nil_append, List.cons.injEq] at heq
          rw [← heq.1, hp] at hq
          simpa using hq
        | cons r pre =>
          simp only [List.cons_append, List.cons.injEq] at heq
          have h0 : r.inlineData = none := hpre r (by simp)
          rw [← heq.1] at h0
          simp [hp] at h0
    | none =>
      simp only [firstInlineData, hp]
      rw [ih]
      constructor
      · rintro ⟨pre, q, post, heq, hpre, hq⟩
        refine ⟨p :: pre, q, post, by simp [heq], ?_, hq⟩
        intro r hr
        rcases List.mem_cons.mp hr with h | h
        · rw [h]; exact hp
        · exact hpre r h
      · rintro ⟨pre, q, post, heq, hpre, hq⟩
        cases pre with
        | nil =>
          simp only [List.nil_append, List.cons.injEq] at heq
          rw [← heq.1, hp] at hq
          simp at hq
        | cons r pre =>
          simp only [List.cons_append, List.cons.injEq] at heq
          exact ⟨pre, q, post, heq.2, fun x hx => hpre x (by simp [hx]), hq⟩

theorem firstInlineData_none_iff (ps : List Part) :
    firstInlineData ps = none ↔ ∀ q ∈ ps, q.inlineData = none := by
  induction ps with
  | nil => simp [firstInlineData]
  | cons p ps ih =>
    cases hp : p.inlineData with
    | some idata =>
      simp only [firstInlineData, hp]
      constructor
      · intro h; exact absurd h (by simp)
      · intro h
        have := h p (by simp)
        simp [hp] at this
    | none =>
      simp only [firstInlineData, hp]
      rw [ih]
      constructor
      · intro h q hq
        rcases List.mem_cons.mp hq with h1 | h1
        · rw [h1]; exact hp
        · exact h q h1
      · intro h q hq
        exact h q (by simp [hq])

/-- The workflow mode selector of the `App` component. -/
inductive Mode where
  | editor
  | generator
deriving DecidableEq, Repr

/-- A locally selected file; the source consumes only its bytes (via the
reader oracle) and its declared media type (`file.type`). -/
structure StoredFile where
  name : String
  type : String
deriving DecidableEq, Repr

/-- The `useState` fields of the `App` component. -/
structure AppState where
  mode : Mode
  isLoading : Bool
  error : Option String
  originalImage : Option String
  originalImageFile : Option StoredFile
  editedImage : Option String
  prompt : String
  blueprintPrompt : String
  generatedBlueprint : Option String
deriving DecidableEq, Repr

/-- The `fileToBase64` reader, modelled as an oracle: a base64 data URL or a
read error. -/
abbrev FileReader := StoredFile → Except String String

/-- `handleImageUpload`: on a selected file it clears the edited result and the
error, stores the file record, then attempts the read; success stores the data
URL, failure sets the read-failure message.  `event.target.files?.[0]` is the
head of the `files` list. -/
def handleImageUpload (read : FileReader) (files : List StoredFile) (s : AppState) :
    AppState :=
  match files.head? with
  | none => s
  | some file =>
    let s1 := { s with editedImage := none, error := none, originalImageFile := some file }
    match read file with
    | Except.ok base64 => { s1 with originalImage := some base64 }
    | Except.error _ => { s1 with error := some "Failed to read the image file." }

/-- `originalImage.split(',')[1]` — the data URL body after the first comma. -/
def dataUrlBody (url : String) : String :=
  (url.splitOn ",").getD 1 ""

/-- `handleGenerateEdit`: validates the three required inputs, then sets
loading, clears error and prior result, calls `editImage`, and dispatches on
the outcome; the `finally` clause clears loading.  The second component is the
list of network requests issued.  JS truthiness: `!originalImage` rejects both
`null` and the empty string, and `if (result)` sends both `null` and the empty
string to the absent-message branch. -/
def handleGenerateEdit (remote : Remote) (s : AppState) :
    AppState × List GenerateContentRequest :=
  match s.originalImage, s.originalImageFile with
  | some img, some file =>
    if img = "" ∨ s.prompt = "" then
      ({ s with error := some "Please upload an image and enter a prompt." }, [])
    else
      let s1 := { s with isLoading := true, error := none, editedImage := none }
      let base64Data := dataUrlBody img
      let s2 :=
        match editImage remote base64Data file.type s.prompt with
        | Except.ok (some result) =>
          if result = "" then
            { s1 with error := some "The model did not return an image. Please try a different prompt." }
          else
            { s1 with editedImage := some ("data:" ++ file.type ++ ";base64," ++ result) }
        | Except.ok none =>
          { s1 with error := some "The model did not return an image. Please try a different prompt." }
        | Except.error _ =>
          { s1 with error := some "An error occurred while generating the image. Please try again." }
      ({ s2 with isLoading := false }, [editImageRequest base64Data file.type s.prompt])
  | _, _ => ({ s with error := some "Please upload an image and enter a prompt." }, [])

/-- `handleGenerateBlueprint`: validates the description, then sets loading,
clears error and prior result, calls `generateImage(blueprintPrompt)` — with no
style argument, so the declared default `_2d` applies — and dispatches on the
outcome; the `finally` clause clears loading.  As in the edit handler,
`if (result)` sends both `null` and the empty string to the absent branch. -/
def handleGenerateBlueprint (remote : Remote) (s : AppState) :
    AppState × List GenerateContentRequest :=
  if s.blueprintPrompt = "" then
    ({ s with error := some "Please enter a description for your blueprint." }, [])
  else
    let s1 := { s with isLoading := true, error := none, generatedBlueprint := none }
    let s2 :=
      match generateImage remote s.blueprintPrompt StyleType._2d with
      | Except.ok (some result) =>
        if result = "" then
          { s1 with error := some "The model did not return an image. Please try a different prompt." }
        else
          { s1 with generatedBlueprint := some ("data:image/png;base64," ++ result) }
      | Except.ok none =>
        { s1 with error := some "The model did not return an image. Please try a different prompt." }
      | Except.error _ =>
        { s1 with error := some "An error occurred while generating the blueprint. Please try again." }
    ({ s2 with isLoading := false }, [generateImageRequest s.blueprintPrompt StyleType._2d])

/-- `switchMode`: sets the mode, clears loading, clears the error. -/
def switchMode (newMode : Mode) (s : AppState) : AppState :=
  { s with mode := newMode, isLoading := false, error := none }

/-- JS falsiness of a nullable string: `null` and the empty string are falsy,
every other string is truthy. -/
def strFalsy : Option String → Bool
  | none => true
  | some str => str == ""

/-- The `disabled` condition of the edit submit button:
`!originalImage || !prompt || isLoading`. -/
def editButtonDisabled (s : AppState) : Bool :=
  strFalsy s.originalImage || (s.prompt = "") || s.isLoading

/-! Concrete fixtures used by the witness theorems. -/

/-- A remote that fails with a transport error. -/
def remoteDown : Remote := fun _ => Except.error "network unreachable"

/-- A text-only content part. -/
def textPart : Part := { inlineData := none, text := some "a caption" }

/-- A content part carrying inline image data. -/
def imagePart : Part :=
  { inlineData := some { data := "IMGDATA", mimeType := "image/png" }, text := none }

/-- A response whose first candidate holds a text part then an image part. -/
def respWithImage : GenerateContentResponse :=
  { candidates := some [{ content := some { parts := some [textPart, imagePart] } }] }

/-- A response whose first candidate holds only a text part. -/
def respTextOnly : GenerateContentResponse :=
  { candidates := some [{ content := some { parts := some [textPart] } }] }

/-- A remote that succeeds with `respWithImage`. -/
def remoteImage : Remote := fun _ => Except.ok respWithImage

/-- A remote that succeeds with `respTextOnly`. -/
def remoteTextOnly : Remote := fun _ => Except.ok respTextOnly

/-- A stored JPEG upload. -/
def jpegFile : StoredFile := { name := "photo.jpg", type := "image/jpeg" }

/-- A state with all edit and generation inputs present. -/
def stateReady : AppState :=
  { mode := Mode.editor, isLoading := false, error := none
  , originalImage := some "data:image/jpeg;base64,ORIGDATA"
  , originalImageFile := some jpegFile
  , editedImage := none, prompt := "add a red hat"
  , blueprintPrompt := "a permaculture village", generatedBlueprint := none }

/-- A state with every required input missing but prior results present. -/
def stateEmptyInputs : AppState :=
  { mode := Mode.editor, isLoading := false, error := none
  , originalImage := none, originalImageFile := none
  , editedImage := some "data:image/png;base64,OLDEDIT"
  , prompt := "", blueprintPrompt := ""
  , generatedBlueprint := some "data:image/png;base64,OLDBP" }

/-- Claim C1: a submission with a required input missing (edit: no stored image
payload, empty instruction, or no stored file; generation: empty description)
issues no network request, sets the validation message, and changes no other
field — in particular the loading flag and both result fields are unchanged. -/
theorem submit_missing_input_is_noop (remote : Remote) (s : AppState) :
    ((s.originalImage = none ∨ s.prompt = "" ∨ s.originalImageFile = none) →
      handleGenerateEdit remote s =
        ({ s with error := some "Please upload an image and enter a prompt." }, [])) ∧
    (s.blueprintPrompt = "" →
      handleGenerateBlueprint remote s =
        ({ s with error := some "Please enter a description for your blueprint." }, [])) := by
  constructor
  · intro h
    cases hI : s.originalImage with
    | none => simp [handleGenerateEdit, hI]
    | some img =>
      cases hF : s.originalImageFile with
      | none => simp [handleGenerateEdit, hI, hF]
      | some file =>
        have hp : s.prompt = "" := by
          rcases h with h | h | h
          · rw [hI] at h; cases h
          · exact h
          · rw [hF] at h; cases h
        simp [handleGenerateEdit, hI, hF, hp]
  · intro h
    simp [handleGenerateBlueprint, h]

/-- Witness for C1 at a concrete state with all inputs missing. -/
theorem submit_missing_input_is_noop_witness :
    handleGenerateEdit remoteDown stateEmptyInputs =
      ({ stateEmptyInputs with error := some "Please upload an image and enter a prompt." }, []) ∧
    handleGenerateBlueprint remoteDown stateEmptyInputs =
      ({ stateEmptyInputs with error := some "Please enter a description for your blueprint." }, []) :=
  ⟨(submit_missing_input_is_noop remoteDown stateEmptyInputs).1 (Or.inl rfl),
   (submit_missing_input_is_noop remoteDown stateEmptyInputs).2 rfl⟩

/-- Claim C2: on a remote response, `editImage` and `generateImage` return the
data of the first part of the first candidate carrying inline image data
(scanning in order), and `none` when no part carries inline data or the
candidate chain is absent. -/
theorem adapter_extracts_first_inline_image (remote : Remote)
    (img mime p g : String) (t : StyleType) (resp : GenerateContentResponse)
    (hE : remote (editImageRequest img mime p) = Except.ok resp)
    (hG : remote (generateImageRequest g t) = Except.ok resp) :
    editImage remote img mime p = Except.ok (firstInlineData (responseParts resp)) ∧
    generateImage remote g t = Except.ok (firstInlineData (responseParts resp)) ∧
    (∀ d, firstInlineData (responseParts resp) = some d ↔
      IsFirstImageData (responseParts resp) d) ∧
    (firstInlineData (responseParts resp) = none ↔
      ∀ q ∈ responseParts resp, q.inlineData = none) ∧
    (resp.candidates = none → firstInlineData (responseParts resp) = none) := by
  refine ⟨?_, ?_, fun d => firstInlineData_some_iff _ d, firstInlineData_none_iff _, ?_⟩
  · simp [editImage, hE]
  · simp [generateImage, hG]
  · intro h
    simp [responseParts, h, firstInlineData]

/-- Witness for C2: a response with a text part before an image part yields the
image part's data. -/
theorem adapter_extracts_first_inline_image_witness :
    editImage remoteImage "B64" "image/jpeg" "add a hat" = Except.ok (some "IMGDATA") ∧
    generateImage remoteImage "a house" StyleType._2d = Except.ok (some "IMGDATA") := by
  have h := adapter_extracts_first_inline_image remoteImage "B64" "image/jpeg" "add a hat"
    "a house" StyleType._2d respWithImage rfl rfl
  exact ⟨h.1.trans (by rfl), h.2.1.trans (by rfl)⟩

/-- A content part carrying inline image data whose data is the empty string. -/
def emptyDataImagePart : Part :=
  { inlineData := some { data := "", mimeType := "image/png" }, text := none }

/-- A response whose first candidate holds one inline image part with empty data. -/
def respEmptyData : GenerateContentResponse :=
  { candidates := some [{ content := some { parts := some [emptyDataImagePart] } }] }

/-- A remote that succeeds with `respEmptyData`. -/
def remoteEmptyData : Remote := fun _ => Except.ok respEmptyData

/-- Counterexample to claim C3: a successful response whose first candidate
contains an inline image part whose data is the empty string.  `if (result)` is
false for the empty string, so the source shows the absent-result message and
displays nothing — not the part's (empty) data tagged with a media type. -/
theorem empty_inline_data_not_displayed_counterexample :
    firstInlineData (responseParts respEmptyData) = some "" ∧
    (handleGenerateEdit remoteEmptyData stateReady).1.editedImage = none ∧
    (handleGenerateEdit remoteEmptyData stateReady).1.error =
      some "The model did not return an image. Please try a different prompt." ∧
    (handleGenerateBlueprint remoteEmptyData stateReady).1.generatedBlueprint = none ∧
    (handleGenerateBlueprint remoteEmptyData stateReady).1.error =
      some "The model did not return an image. Please try a different prompt." := by
  refine ⟨rfl, ?_, ?_, ?_, ?_⟩ <;> decide

/-- Claim C3 as amended: a successful response whose first candidate contains
an inline image part with nonempty data yields a displayed result equal to that
part's data tagged with the correct media type — the original upload's type for
an edit, `image/png` for a generation; a part with empty data is instead
treated as an absent image. -/
theorem success_result_tagged_with_media_type (remote : Remote) (s : AppState) :
    (∀ img file resp d, s.originalImage = some img → s.originalImageFile = some file →
      ¬ img = "" → ¬ s.prompt = "" → ¬ d = "" →
      remote (editImageRequest (dataUrlBody img) file.type s.prompt) = Except.ok resp →
      firstInlineData (responseParts resp) = some d →
      (handleGenerateEdit remote s).1.editedImage =
        some ("data:" ++ file.type ++ ";base64," ++ d)) ∧
    (∀ resp d, ¬ s.blueprintPrompt = "" → ¬ d = "" →
      remote (generateImageRequest s.blueprintPrompt StyleType._2d) = Except.ok resp →
      firstInlineData (responseParts resp) = some d →
      (handleGenerateBlueprint remote s).1.generatedBlueprint =
        some ("data:image/png;base64," ++ d)) := by
  constructor
  · intro img file resp d hI hF himg hp hd0 hr hd
    simp [handleGenerateEdit, hI, hF, himg, hp, editImage, hr, hd, hd0]
  · intro resp d hp hd0 hr hd
    simp [handleGenerateBlueprint, generateImage, hp, hr, hd, hd0]

/-- Witness for the amended C3: a JPEG upload keeps `image/jpeg`; a generated
blueprint is tagged `image/png`. -/
theorem success_result_tagged_with_media_type_witness :
    (handleGenerateEdit remoteImage stateReady).1.editedImage =
      some "data:image/jpeg;base64,IMGDATA" ∧
    (handleGenerateBlueprint remoteImage stateReady).1.generatedBlueprint =
      some "data:image/png;base64,IMGDATA" := by
  have h := success_result_tagged_with_media_type remoteImage stateReady
  exact ⟨h.1 "data:image/jpeg;base64,ORIGDATA" jpegFile respWithImage "IMGDATA"
      rfl rfl (by decide) (by decide) (by decide) rfl rfl,
    h.2 respWithImage "IMGDATA" (by decide) (by decide) rfl rfl⟩

/-- Claim C6: switching workflow mode resets only loading and error; every
other field is unchanged, so switching modes and back preserves both workflows'
displayed results. -/
theorem switchMode_resets_only_transients (m m2 : Mode) (s : AppState) :
    switchMode m s = { s with mode := m, isLoading := false, error := none } ∧
    (switchMode m (switchMode m2 s)).editedImage = s.editedImage ∧
    (switchMode m (switchMode m2 s)).generatedBlueprint = s.generatedBlueprint :=
  ⟨rfl, rfl, rfl⟩

/-- Claim C10: a file-selection event carrying no file leaves the state exactly
as it was and attempts no read. -/
theorem empty_selection_changes_nothing (read : FileReader) (s : AppState) :
    handleImageUpload read [] s = s := rfl

/-- Claim C4: the adapter re-raises a remote error unchanged (both entry
points), and on such an error the edit handler clears loading, sets the generic
retry message, leaves no image result displayed (the prior result was cleared
and not restored), and issued exactly the one request of this attempt. -/
theorem service_error_propagates_and_clears (remote : Remote) (s : AppState) :
    (∀ a b c e, remote (editImageRequest a b c) = Except.error e →
      editImage remote a b c = Except.error e) ∧
    (∀ p t e, remote (generateImageRequest p t) = Except.error e →
      generateImage remote p t = Except.error e) ∧
    (∀ img file e, s.originalImage = some img → s.originalImageFile = some file →
      ¬ img = "" → ¬ s.prompt = "" →
      remote (editImageRequest (dataUrlBody img) file.type s.prompt) = Except.error e →
      (handleGenerateEdit remote s).1.isLoading = false ∧
      (handleGenerateEdit remote s).1.error =
        some "An error occurred while generating the image. Please try again." ∧
      (handleGenerateEdit remote s).1.editedImage = none ∧
      (handleGenerateEdit remote s).2 =
        [editImageRequest (dataUrlBody img) file.type s.prompt]) := by
  refine ⟨?_, ?_, ?_⟩
  · intro a b c e h
    simp [editImage, h]
  · intro p t e h
    simp [generateImage, h]
  · intro img file e hI hF himg hp hr
    refine ⟨?_, ?_, ?_, ?_⟩ <;>
      simp [handleGenerateEdit, hI, hF, himg, hp, editImage, hr]

/-- Witness for C4 with a failing remote and a fully populated state. -/
theorem service_error_propagates_and_clears_witness :
    editImage remoteDown "B64" "image/jpeg" "add a hat" =
      Except.error "network unreachable" ∧
    (handleGenerateEdit remoteDown stateReady).1.isLoading = false ∧
    (handleGenerateEdit remoteDown stateReady).1.error =
      some "An error occurred while generating the image. Please try again." ∧
    (handleGenerateEdit remoteDown stateReady).1.editedImage = none := by
  have h := service_error_propagates_and_clears remoteDown stateReady
  have h2 := h.2.2 "data:image/jpeg;base64,ORIGDATA" jpegFile "network unreachable"
    rfl rfl (by decide) (by decide) rfl
  exact ⟨h.1 "B64" "image/jpeg" "add a hat" "network unreachable" rfl,
    h2.1, h2.2.1, h2.2.2.1⟩

/-- Claim C5: a successful response with zero inline-image parts across the
first candidate's parts yields the absent-result message (never the generic
service-error message), clears loading, and stores no image for the attempt —
for both workflows. -/
theorem absent_result_shows_absent_message (remote : Remote) (s : AppState) :
    (∀ img file resp, s.originalImage = some img → s.originalImageFile = some file →
      ¬ img = "" → ¬ s.prompt = "" →
      remote (editImageRequest (dataUrlBody img) file.type s.prompt) = Except.ok resp →
      (∀ q ∈ responseParts resp, q.inlineData = none) →
      (handleGenerateEdit remote s).1.error =
        some "The model did not return an image. Please try a different prompt." ∧
      (handleGenerateEdit remote s).1.error ≠
        some "An error occurred while generating the image. Please try again." ∧
      (handleGenerateEdit remote s).1.isLoading = false ∧
      (handleGenerateEdit remote s).1.editedImage = none) ∧
    (∀ resp, ¬ s.blueprintPrompt = "" →
      remote (generateImageRequest s.blueprintPrompt StyleType._2d) = Except.ok resp →
      (∀ q ∈ responseParts resp, q.inlineData = none) →
      (handleGenerateBlueprint remote s).1.error =
        some "The model did not return an image. Please try a different prompt." ∧
      (handleGenerateBlueprint remote s).1.error ≠
        some "An error occurred while generating the blueprint. Please try again." ∧
      (handleGenerateBlueprint remote s).1.isLoading = false ∧
      (handleGenerateBlueprint remote s).1.generatedBlueprint = none) := by
  constructor
  · intro img file resp hI hF himg hp hr hall
    have hd : firstInlineData (responseParts resp) = none :=
      (firstInlineData_none_iff (responseParts resp)).mpr hall
    have herr : (handleGenerateEdit remote s).1.error =
        some "The model did not return an image. Please try a different prompt." := by
      simp [handleGenerateEdit, hI, hF, himg, hp, editImage, hr, hd]
    refine ⟨herr, ?_, ?_, ?_⟩
    · rw [herr]; decide
    · simp [handleGenerateEdit, hI, hF, himg, hp, editImage, hr, hd]
    · simp [handleGenerateEdit, hI, hF, himg, hp, editImage, hr, hd]
  · intro resp hp hr hall
    have hd : firstInlineData (responseParts resp) = none :=
      (firstInlineData_none_iff (responseParts resp)).mpr hall
    have herr : (handleGenerateBlueprint remote s).1.error =
        some "The model did not return an image. Please try a different prompt." := by
      simp [handleGenerateBlueprint, generateImage, hp, hr, hd]
    refine ⟨herr, ?_, ?_, ?_⟩
    · rw [herr]; decide
    · simp [handleGenerateBlueprint, generateImage, hp, hr, hd]
    · simp [handleGenerateBlueprint, generateImage, hp, hr, hd]

/-- Witness for C5: a text-only response produces the absent-result message in
both workflows. -/
theorem absent_result_shows_absent_message_witness :
    (handleGenerateEdit remoteTextOnly stateReady).1.error =
      some "The model did not return an image. Please try a different prompt." ∧
    (handleGenerateEdit remoteTextOnly stateReady).1.editedImage = none ∧
    (handleGenerateBlueprint remoteTextOnly stateReady).1.error =
      some "The model did not return an image. Please try a different prompt." ∧
    (handleGenerateBlueprint remoteTextOnly stateReady).1.generatedBlueprint = none := by
  have h := absent_result_shows_absent_message remoteTextOnly stateReady
  have h1 := h.1 "data:image/jpeg;base64,ORIGDATA" jpegFile respTextOnly
    rfl rfl (by decide) (by decide) rfl (by decide)
  have h2 := h.2 respTextOnly (by decide) rfl (by decide)
  exact ⟨h1.1, h1.2.2.2, h2.1, h2.2.2.2⟩

/-- Counterexample to claim C7: the application state stores no style selector,
and at a concrete valid generation submission the single issued request carries
the fixed `_2d` system instruction — the `_3d` instruction, a different string,
is never attached, so the call does not follow a currently selected variant. -/
theorem blueprint_variant_counterexample :
    ((handleGenerateBlueprint remoteImage stateReady).2.map
      (fun r => r.config.systemInstruction)) =
      [some (systemInstructions StyleType._2d)] ∧
    systemInstructions StyleType._2d ≠ systemInstructions StyleType._3d := by
  exact ⟨rfl, by decide⟩

/-- Claim C7 as amended: every valid generation submission calls the generation
operation with the fixed default variant `_2d` (the state holds no style
selector), and for each variant the operation attaches the fixed system
instruction text selected by that variant. -/
theorem blueprint_call_uses_default_variant (remote : Remote) (s : AppState)
    (h : ¬ s.blueprintPrompt = "") :
    (handleGenerateBlueprint remote s).2 =
      [generateImageRequest s.blueprintPrompt StyleType._2d] ∧
    (∀ t, (generateImageRequest s.blueprintPrompt t).config.systemInstruction =
      some (systemInstructions t)) := by
  constructor
  · simp [handleGenerateBlueprint, h]
  · intro t; rfl

/-- Witness for the amended C7 at a concrete state. -/
theorem blueprint_call_uses_default_variant_witness :
    (handleGenerateBlueprint remoteImage stateReady).2 =
      [generateImageRequest "a permaculture village" StyleType._2d] ∧
    (generateImageRequest "a permaculture village" StyleType._3d).config.systemInstruction =
      some (systemInstructions StyleType._3d) := by
  have h := blueprint_call_uses_default_variant remoteImage stateReady (by decide)
  exact ⟨h.1, h.2 StyleType._3d⟩

/-- A file reader that always fails. -/
def readerFail : FileReader := fun _ => Except.error "read aborted"

/-- A file reader that always yields a fixed data URL. -/
def readerOk : FileReader := fun _ => Except.ok "data:image/png;base64,NEWDATA"

/-- A newly selected PNG file. -/
def pngFile : StoredFile := { name := "new.png", type := "image/png" }

/-- Counterexample to claim C8: after a failed read of a newly selected file,
the stored file record does reflect the new file (it is set before the read is
attempted), contradicting the claim that it is left unset. -/
theorem upload_failure_keeps_new_file_counterexample :
    (handleImageUpload readerFail [pngFile] stateReady).originalImageFile = some pngFile ∧
    stateReady.originalImageFile ≠ some pngFile := by
  exact ⟨rfl, by decide⟩

/-- Claim C8 as amended: a failed read sets the distinct read-failure message
and never stores the new file's payload — `originalImage` keeps its prior
value — but the stored file record is updated to the newly selected file, and
the edited result is cleared. -/
theorem upload_failure_state (read : FileReader) (file : StoredFile)
    (files : List StoredFile) (s : AppState) (e : String)
    (hhead : files.head? = some file)
    (hfail : read file = Except.error e) :
    handleImageUpload read files s =
      { s with editedImage := none, originalImageFile := some file
             , error := some "Failed to read the image file." } := by
  simp [handleImageUpload, hhead, hfail]

/-- Witness for the amended C8 at a concrete failing read. -/
theorem upload_failure_state_witness :
    handleImageUpload readerFail [pngFile] stateReady =
      { stateReady with editedImage := none, originalImageFile := some pngFile
                      , error := some "Failed to read the image file." } :=
  upload_failure_state readerFail pngFile [pngFile] stateReady "read aborted" rfl rfl

/-- A valid edit state whose loading flag is already set. -/
def stateLoading : AppState := { stateReady with isLoading := true }

/-- Counterexample to claim C9: with the loading flag set and all edit inputs
valid, the edit handler still issues a network request — the overlapping
submission is neither rejected nor queued. -/
theorem overlapping_submit_not_rejected_counterexample :
    stateLoading.isLoading = true ∧
    (handleGenerateEdit remoteImage stateLoading).2 ≠ [] := by
  exact ⟨rfl, by decide⟩

/-- Claim C9 as amended: overlap prevention is only advisory — whenever the
loading flag is set the UI submit button is disabled, but the handler itself
does not consult the flag and, on valid inputs, issues its request regardless. -/
theorem loading_flag_advisory_only (remote : Remote) (s : AppState)
    (hload : s.isLoading = true) :
    editButtonDisabled s = true ∧
    (∀ img file, s.originalImage = some img → s.originalImageFile = some file →
      ¬ img = "" → ¬ s.prompt = "" →
      (handleGenerateEdit remote s).2 =
        [editImageRequest (dataUrlBody img) file.type s.prompt]) := by
  constructor
  · simp [editButtonDisabled, hload]
  · intro img file hI hF himg hp
    simp [handleGenerateEdit, hI, hF, himg, hp]

/-- Witness for the amended C9 at a concrete loading state. -/
theorem loading_flag_advisory_only_witness :
    editButtonDisabled stateLoading = true ∧
    (handleGenerateEdit remoteImage stateLoading).2 =
      [editImageRequest (dataUrlBody "data:image/jpeg;base64,ORIGDATA")
        jpegFile.type stateLoading.prompt] := by
  have h := loading_flag_advisory_only remoteImage stateLoading rfl
  exact ⟨h.1, h.2 "data:image/jpeg;base64,ORIGDATA" jpegFile rfl rfl (by decide) (by decide)⟩

end NanoBanana
